import Mathlib

/-!
Verification of the retrieval-orchestration core of the metabolic-syndrome
counseling backend (`src/backend/src/metabolic_backend`).

The Python source is shallowly embedded:
* pure functions become Lean functions;
* Python `float` score/similarity values become exact rationals (`ℚ`) — the
  code only compares and sorts them, it performs no lossy float arithmetic on
  the paths verified here;
* wall-clock readings (`time.perf_counter`, `datetime.now`) become explicit
  parameters (timestamps in seconds as `ℤ`) or are fixed to `0` where no
  property depends on them;
* fallible operations return `Except PyErr`; dynamic-dispatch failures of the
  CPython runtime (unknown dataclass keyword, missing attribute, mutating a
  dict during iteration) are modelled by an explicit check against the field /
  method tables taken from the source;
* external collaborators (OpenAI client, pgvector, Graphiti, the sentence
  transformer) are parameters of the embedding, exactly at the boundaries the
  source isolates them.
-/

/-- Exceptions raised by the embedded Python code. -/
inductive PyErr where
  /-- `TypeError`, e.g. an unexpected keyword argument in a dataclass call. -/
  | typeError (msg : String)
  /-- `AttributeError`: attribute lookup failed on an object. -/
  | attributeError (name : String)
  /-- `RuntimeError`, e.g. "dictionary changed size during iteration". -/
  | runtimeError (msg : String)
  /-- `KeyError`: a required key is missing from the LangGraph state dict. -/
  | keyError (key : String)
  deriving Repr, DecidableEq

/-- Decidable equality for `Except` results (for evaluating the embedded
functions on concrete inputs). -/
instance {ε α : Type} [DecidableEq ε] [DecidableEq α] : DecidableEq (Except ε α) := fun x y =>
  match x, y with
  | Except.ok a, Except.ok b => decidable_of_iff (a = b) (by simp)
  | Except.ok _, Except.error _ => isFalse (by simp)
  | Except.error _, Except.ok _ => isFalse (by simp)
  | Except.error e, Except.error f => decidable_of_iff (e = f) (by simp)

/-- Whitespace recognised by `str.strip` / `str.split` / regex `\s`
(the ASCII part; the inputs handled here contain no exotic Unicode spaces). -/
def pyIsSpace (c : Char) : Bool :=
  c == ' ' || c == '\t' || c == '\n' || c == '\x0d' || c == '\x0b' || c == '\x0c'

/-- `str.strip()` on a character list. -/
def pyStripChars (cs : List Char) : List Char :=
  ((cs.dropWhile pyIsSpace).reverse.dropWhile pyIsSpace).reverse

/-- Python `str.strip()`. -/
def pyStrip (s : String) : String :=
  ⟨pyStripChars s.data⟩

/-- Python `str.strip(chars)` with an explicit character set. -/
def pyStripSet (set : List Char) (s : String) : String :=
  ⟨((s.data.dropWhile (set.contains ·)).reverse.dropWhile (set.contains ·)).reverse⟩

/-- ASCII case folding of one character (Korean text is unaffected, matching
CPython `str.lower()` on the inputs that occur here). -/
def pyCharLower (c : Char) : Char :=
  if 'A' ≤ c && c ≤ 'Z' then Char.ofNat (c.toNat + 32) else c

/-- Python `str.lower()`. -/
def pyLower (s : String) : String :=
  ⟨s.data.map pyCharLower⟩

/-- Helper for `str.split()`: accumulate maximal non-space runs. -/
def pyWordsAux : List Char → List Char → List (List Char)
  | [], cur => if cur.isEmpty then [] else [cur.reverse]
  | c :: rest, cur =>
    if pyIsSpace c then
      if cur.isEmpty then pyWordsAux rest [] else cur.reverse :: pyWordsAux rest []
    else
      pyWordsAux rest (c :: cur)

/-- Python `str.split()` (no separator: split on whitespace runs, drop empties). -/
def pySplit (s : String) : List String :=
  (pyWordsAux s.data []).map (fun w => ⟨w⟩)

/-- Does `hay` start with `needle`? -/
def listStartsWith : List Char → List Char → Bool
  | [], _ => true
  | _ :: _, [] => false
  | n :: ns, h :: hs => n == h && listStartsWith ns hs

/-- Substring containment on character lists (Python `needle in hay`). -/
def listContains (needle : List Char) : List Char → Bool
  | [] => needle.isEmpty
  | h :: hs => listStartsWith needle (h :: hs) || listContains needle hs

/-- Python `needle in hay` for strings. -/
def pyIn (needle hay : String) : Bool :=
  listContains needle.data hay.data

/-- Python `s.count(c)` for a single-character needle. -/
def pyCountChar (s : String) (c : Char) : ℕ :=
  s.data.count c

/-- Python `s.endswith(suffix)`. -/
def pyEndsWith (s suffix : String) : Bool :=
  listStartsWith suffix.data.reverse s.data.reverse

/-- Python dict `d[k] = v`: replace in place if the key exists (keeping its
position, as CPython dicts do), else append. -/
def pySetItem {β : Type} (d : List (String × β)) (k : String) (v : β) : List (String × β) :=
  if d.any (fun e => e.1 == k) then
    d.map (fun e => if e.1 == k then (k, v) else e)
  else
    d ++ [(k, v)]

/-- Python dict lookup `d.get(k)`. -/
def pyGetItem {β : Type} (d : List (String × β)) (k : String) : Option β :=
  (d.find? (fun e => e.1 == k)).map (·.2)

/-- Checked Python dataclass construction: every keyword must name a declared
field.  (dataclasses generate a fixed-signature `__init__`; an unknown keyword
raises `TypeError`.)  Only the keyword check is modelled — it is everything the
verified paths reach. -/
def pyDataclassKwargsCheck (cls : String) (fields kwargs : List String) : Except PyErr Unit :=
  match kwargs.find? (fun k => !(fields.contains k)) with
  | some k =>
    Except.error (PyErr.typeError
      (cls ++ ".__init__() got an unexpected keyword argument " ++ k))
  | none => Except.ok ()

/-- Checked Python attribute lookup of a method on an object, against the
method table of its class as written in the source. -/
def pyGetMethod (cls : String) (methods : List String) (name : String) : Except PyErr Unit :=
  if methods.contains name then Except.ok ()
  else Except.error (PyErr.attributeError (cls ++ " object has no attribute " ++ name))

/-! ### A small regex engine for the five PII patterns and the safety regexes

Only the constructs used by the source's patterns are implemented: character
classes, concatenation, alternation, greedy bounded/unbounded repetition, and
the word-boundary assertion `\b`.  Matching is backtracking with Python's
preference order (leftmost position, greedy repetition, left alternative
first).  A fuel argument makes the functions structurally terminating; the
fuel supplied below strictly dominates the backtracking depth for the
patterns at hand. -/

/-- Regular-expression syntax used by the source's patterns. -/
inductive RE where
  | cls (p : Char → Bool)
  | seq (a b : RE)
  | alt (a b : RE)
  | rep (a : RE) (lo : ℕ) (hi : Option ℕ)
  | wb

/-- `\w` as it applies to the text handled by this system (ASCII alphanumerics,
underscore, Hangul syllables). -/
def pyIsWordChar (c : Char) : Bool :=
  ('A' ≤ c && c ≤ 'Z') || ('a' ≤ c && c ≤ 'z') || ('0' ≤ c && c ≤ '9') ||
    c == '_' || ('가' ≤ c && c ≤ '힣')

/-- Backtracking matcher in continuation-passing style.  `prev` is the
character just before the current position (for `\b`); the continuation
receives the updated `prev` and the remaining input, and the final
continuation returns the suffix after the match. -/
def reMatch : ℕ → RE → Option Char → List Char →
    (Option Char → List Char → Option (List Char)) → Option (List Char)
  | 0, _, _, _, _ => none
  | fuel + 1, r, prev, cs, k =>
    match r with
    | RE.cls p =>
      match cs with
      | [] => none
      | c :: rest => if p c then k (some c) rest else none
    | RE.seq a b => reMatch fuel a prev cs (fun p1 cs1 => reMatch fuel b p1 cs1 k)
    | RE.alt a b =>
      match reMatch fuel a prev cs k with
      | some res => some res
      | none => reMatch fuel b prev cs k
    | RE.wb =>
      let lw := match prev with | some c => pyIsWordChar c | none => false
      let rw := match cs with | c :: _ => pyIsWordChar c | [] => false
      if lw != rw then k prev cs else none
    | RE.rep a lo hi =>
      match lo with
      | l + 1 =>
        reMatch fuel a prev cs
          (fun p1 cs1 => reMatch fuel (RE.rep a l (hi.map (· - 1))) p1 cs1 k)
      | 0 =>
        match hi with
        | some 0 => k prev cs
        | _ =>
          match reMatch fuel a prev cs
              (fun p1 cs1 => reMatch fuel (RE.rep a 0 (hi.map (· - 1))) p1 cs1 k) with
          | some res => some res
          | none => k prev cs

/-- Fuel that dominates the backtracking depth of the patterns used here. -/
def reFuel (cs : List Char) : ℕ :=
  (cs.length + 2) * 64

/-- Preferred match of `r` anchored at the current position; returns the
suffix after the match. -/
def reMatchHere (r : RE) (prev : Option Char) (cs : List Char) : Option (List Char) :=
  reMatch (reFuel cs) r prev cs (fun _ rest => some rest)

/-- `re.search`: does `r` match anywhere in the input? -/
def reSearchAux (r : RE) : ℕ → Option Char → List Char → Bool
  | 0, _, _ => false
  | fuel + 1, prev, cs =>
    match reMatchHere r prev cs with
    | some _ => true
    | none =>
      match cs with
      | [] => false
      | c :: rest => reSearchAux r fuel (some c) rest

/-- `re.search(r, s) is not None`. -/
def reSearch (r : RE) (s : String) : Bool :=
  reSearchAux r (s.data.length + 1) none s.data

/-- `pattern.sub("[REDACTED]", ·)`: leftmost non-overlapping replacement.
The patterns used here never match the empty string; should one ever do so the
position is skipped (instead of CPython's advance-by-one), which keeps the
function total without affecting the patterns at hand. -/
def reSubAux (r : RE) : ℕ → Option Char → List Char → List Char
  | 0, _, cs => cs
  | fuel + 1, prev, cs =>
    match cs with
    | [] => []
    | c :: rest =>
      match reMatchHere r prev cs with
      | some remaining =>
        if remaining.length == cs.length then
          c :: reSubAux r fuel (some c) rest
        else
          let consumed := cs.take (cs.length - remaining.length)
          ("[REDACTED]").data ++
            reSubAux r fuel (consumed.getLast?.orElse (fun _ => prev)) remaining
      | none => c :: reSubAux r fuel (some c) rest

/-- `pattern.sub("[REDACTED]", s)`. -/
def reSub (r : RE) (s : String) : String :=
  ⟨reSubAux r (s.data.length + 1) none s.data⟩

/-- A literal string as a regex. -/
def reLitList : List Char → RE
  | [] => RE.rep (RE.cls (fun _ => false)) 0 (some 0)
  | [c] => RE.cls (· == c)
  | c :: rest => RE.seq (RE.cls (· == c)) (reLitList rest)

/-- A literal string as a regex. -/
def reLit (s : String) : RE :=
  reLitList s.data

/-! ### guardrails.py — PII patterns (module constants `_EMAIL_PATTERN` …) -/

/-- `[A-Za-z0-9._%+-]` (email local part). -/
def emailLocalChar (c : Char) : Bool :=
  ('A' ≤ c && c ≤ 'Z') || ('a' ≤ c && c ≤ 'z') || ('0' ≤ c && c ≤ '9') ||
    c == '.' || c == '_' || c == '%' || c == '+' || c == '-'

/-- `[A-Za-z0-9.-]` (email domain part). -/
def emailDomainChar (c : Char) : Bool :=
  ('A' ≤ c && c ≤ 'Z') || ('a' ≤ c && c ≤ 'z') || ('0' ≤ c && c ≤ '9') ||
    c == '.' || c == '-'

/-- `[A-Za-z]`. -/
def asciiAlphaChar (c : Char) : Bool :=
  ('A' ≤ c && c ≤ 'Z') || ('a' ≤ c && c ≤ 'z')

/-- `[0-9]` / `\d`. -/
def asciiDigitChar (c : Char) : Bool :=
  '0' ≤ c && c ≤ '9'

/-- `[가-힣]`. -/
def hangulChar (c : Char) : Bool :=
  '가' ≤ c && c ≤ '힣'

/-- `[A-Za-z0-9._%+-]+@[A-Za-z0-9.-]+\.[A-Za-z]{2,}` (IGNORECASE is moot —
both cases are in the classes). -/
def emailPattern : RE :=
  RE.seq (RE.rep (RE.cls emailLocalChar) 1 none)
    (RE.seq (RE.cls (· == '@'))
      (RE.seq (RE.rep (RE.cls emailDomainChar) 1 none)
        (RE.seq (RE.cls (· == '.')) (RE.rep (RE.cls asciiAlphaChar) 2 none))))

/-- `\b(?:0\d{1,2}-?\d{3,4}-?\d{4})\b`. -/
def phonePattern : RE :=
  RE.seq RE.wb
    (RE.seq (RE.cls (· == '0'))
      (RE.seq (RE.rep (RE.cls asciiDigitChar) 1 (some 2))
        (RE.seq (RE.rep (RE.cls (· == '-')) 0 (some 1))
          (RE.seq (RE.rep (RE.cls asciiDigitChar) 3 (some 4))
            (RE.seq (RE.rep (RE.cls (· == '-')) 0 (some 1))
              (RE.seq (RE.rep (RE.cls asciiDigitChar) 4 (some 4)) RE.wb))))))

/-- `\b\d{6}-?\d{7}\b`. -/
def rrnPattern : RE :=
  RE.seq RE.wb
    (RE.seq (RE.rep (RE.cls asciiDigitChar) 6 (some 6))
      (RE.seq (RE.rep (RE.cls (· == '-')) 0 (some 1))
        (RE.seq (RE.rep (RE.cls asciiDigitChar) 7 (some 7)) RE.wb)))

/-- `\b\d{3,4}-\d{3,4}-\d{3,4}\b`. -/
def accountPattern : RE :=
  RE.seq RE.wb
    (RE.seq (RE.rep (RE.cls asciiDigitChar) 3 (some 4))
      (RE.seq (RE.cls (· == '-'))
        (RE.seq (RE.rep (RE.cls asciiDigitChar) 3 (some 4))
          (RE.seq (RE.cls (· == '-'))
            (RE.seq (RE.rep (RE.cls asciiDigitChar) 3 (some 4)) RE.wb)))))

/-- `(?:이름|성명)\s*[:：]\s*[가-힣]{2,4}`. -/
def nameTagPattern : RE :=
  RE.seq (RE.alt (reLit ("이름")) (reLit ("성명")))
    (RE.seq (RE.rep (RE.cls pyIsSpace) 0 none)
      (RE.seq (RE.cls (fun c => c == ':' || c == '：'))
        (RE.seq (RE.rep (RE.cls pyIsSpace) 0 none)
          (RE.rep (RE.cls hangulChar) 2 (some 4)))))

/-- `_PATTERNS` in source order. -/
def piiPatterns : List RE :=
  [emailPattern, phonePattern, rrnPattern, accountPattern, nameTagPattern]

/-- `guardrails.scrub_text`: substitute every PII pattern with `[REDACTED]`. -/
def scrub_text (value : String) : String :=
  piiPatterns.foldl (fun scrubbed pattern => reSub pattern scrubbed) value

/-! ### analysis/classifier.py -/

/-- `SafetyLevel` (ordered enum `clear < caution < escalate`). -/
inductive SafetyLevel where
  | clear
  | caution
  | escalate
  deriving Repr, DecidableEq

/-- `SafetyLevel.value`. -/
def SafetyLevel.value : SafetyLevel → String
  | SafetyLevel.clear => "clear"
  | SafetyLevel.caution => "caution"
  | SafetyLevel.escalate => "escalate"

/-- `QuestionAnalysisResult` (slots dataclass). -/
structure QuestionAnalysisResult where
  domain : String
  complexity : String
  safety : SafetyLevel
  reasons : List String
  latency_ms : ℚ
  deriving Repr, DecidableEq

/-- The field names of the `QuestionAnalysisResult` dataclass, as declared. -/
def questionAnalysisResultFields : List String :=
  [("domain"), ("complexity"), ("safety"), ("reasons"), ("latency_ms")]

/-- `QuestionAnalyzer._DOMAIN_KEYWORDS` (insertion order of the dict literal). -/
def domainKeywords : List (String × List String) :=
  [(("exercise"), [("운동"), ("활동"), ("걷기"), ("조깅"), ("근력"), ("유산소")]),
   (("diet"), [("식단"), ("음식"), ("칼로리"), ("식사"), ("영양"), ("탄수화물")]),
   (("medical"), [("약"), ("처방"), ("복용"), ("약물"), ("증상"), ("통증")]),
   (("lifestyle"), [("음주"), ("흡연"), ("스트레스"), ("수면"), ("생활")])]

/-- `_SAFETY_ESCALATE_KEYWORDS` (a Python set; iteration order is arbitrary in
CPython — the written order is used here.  Only the reason string depends on
the order, never the returned level). -/
def safetyEscalateKeywords : List String :=
  [("약"), ("처방"), ("복용"), ("복용량"), ("응급"), ("심장"), ("약물")]

/-- `_SAFETY_CAUTION_KEYWORDS` (same remark on set order). -/
def safetyCautionKeywords : List String :=
  [("질환"), ("진단"), ("위험"), ("검사"), ("수치"), ("저혈당"), ("고혈당")]

/-- `\bw\b` for a literal keyword `w`. -/
def reWord (s : String) : RE :=
  RE.seq RE.wb (RE.seq (reLit s) RE.wb)

/-- `_SAFETY_ESCALATE` regex set (written order; see the set-order remark). -/
def safetyEscalateRegexes : List RE :=
  [reWord ("약"), reWord ("처방"), reWord ("복용량"), reWord ("부작용"),
   reWord ("응급"), reWord ("통증"), reWord ("심장"),
   RE.seq (reLit ("혈압이")) (RE.seq (RE.rep (RE.cls pyIsSpace) 0 none) (reLit ("높"))),
   RE.seq (reLit ("혈당이")) (RE.seq (RE.rep (RE.cls pyIsSpace) 0 none) (reLit ("위험")))]

/-- `_SAFETY_CAUTION` regex set (written order). -/
def safetyCautionRegexes : List RE :=
  [reWord ("질환"), reWord ("진단"), reWord ("위험"), reWord ("검사"),
   reWord ("수치"), reWord ("저혈당"), reWord ("고혈당")]

/-- `_COMPLEXITY_MULTI` connector set. -/
def complexityMulti : List String :=
  [("그리고"), ("또"), ("동시에"), ("뿐만"), ("그러면"), ("만약")]

/-- `QuestionAnalyzer._detect_domain`: first keyword-set hit wins, defaulting
to `lifestyle`.  Returns the domain and the appended reason. -/
def detect_domain (text : String) : String × String :=
  match domainKeywords.find? (fun dk => dk.2.any (fun keyword => pyIn keyword text)) with
  | some dk => (dk.1, ("Domain keyword match: ") ++ dk.1)
  | none => (("lifestyle"), ("Defaulted to lifestyle domain"))

/-- `QuestionAnalyzer._estimate_complexity`. -/
def estimate_complexity (text : String) : String × String :=
  if pyIn ("?") text && complexityMulti.any (fun conn => pyIn conn text) then
    (("multi-hop"), ("Detected multi-hop connectors"))
  else if pyCountChar text '?' > 1 then
    (("compound"), ("Multiple questions detected"))
  else if (pySplit text).length > 30 then
    (("compound"), ("Long question assumes compound context"))
  else
    (("simple"), ("Classified as simple question"))

/-- `QuestionAnalyzer._detect_safety`: strict precedence — escalate keywords,
escalate regexes, caution keywords, caution regexes, else clear; the first
hit short-circuits. -/
def detect_safety (text : String) : SafetyLevel × String :=
  match safetyEscalateKeywords.find? (fun keyword => pyIn keyword text) with
  | some keyword => (SafetyLevel.escalate, ("Escalate keyword hit: ") ++ keyword)
  | none =>
    if safetyEscalateRegexes.any (fun pattern => reSearch pattern text) then
      (SafetyLevel.escalate, ("Escalate keyword hit (pattern)"))
    else
      match safetyCautionKeywords.find? (fun keyword => pyIn keyword text) with
      | some keyword => (SafetyLevel.caution, ("Caution keyword hit: ") ++ keyword)
      | none =>
        if safetyCautionRegexes.any (fun pattern => reSearch pattern text) then
          (SafetyLevel.caution, ("Caution keyword hit (pattern)"))
        else
          (SafetyLevel.clear, ("No safety flags detected"))

/-- `QuestionAnalyzer.analyze`.  The wall-clock reading is an explicit
parameter `latency_ms`; the configured budget (seconds) is `latency_budget`.
If the measured latency exceeds the budget the result is forcibly escalated
(defensive fail-safe). -/
def analyze (latency_budget : ℚ) (latency_ms : ℚ) (question : String)
    (_context : Option String) : QuestionAnalysisResult :=
  let text := pyStrip question
  let dom := detect_domain text
  let comp := estimate_complexity text
  let saf := detect_safety text
  let reasons := [dom.2, comp.2, saf.2]
  if latency_ms > latency_budget * 1000 then
    { domain := dom.1, complexity := comp.1, safety := SafetyLevel.escalate,
      reasons := reasons ++ [("Latency budget exceeded")], latency_ms := latency_ms }
  else
    { domain := dom.1, complexity := comp.1, safety := saf.1,
      reasons := reasons, latency_ms := latency_ms }

/-! ### orchestrator/guardrails.py -/

/-- `ESCALATION_SENTENCE`. -/
def escalationSentence : String :=
  "This topic requires medical supervision. Consult the attending physician for any treatment decisions."

/-- `ESCALATION_SENTENCE_KO`. -/
def escalationSentenceKo : String :=
  "의학적 판단이 필요한 주제입니다. 치료 결정은 반드시 담당 의사와 상의해 주세요."

/-- `SafetyEnvelope` (slots dataclass). -/
structure SafetyEnvelope where
  level : SafetyLevel
  banner_title : String
  banner_body : String
  escalation_copy : String
  answer_override : Option String := none
  deriving Repr, DecidableEq

/-- The field names of the `SafetyEnvelope` dataclass, as declared. -/
def safetyEnvelopeFields : List String :=
  [("level"), ("banner_title"), ("banner_body"), ("escalation_copy"), ("answer_override")]

/-- The fixed physician-referral override answer built for `escalate`. -/
def escalateOverrideAnswer : String :=
  "현재 질문은 의학적 판단이 필요한 주제입니다. 일반적인 생활 정보를 제외한 구체적인 답변은 제공할 수 없으며, 필수 안내: 담당 의사와 즉시 상담해 주세요. (Consult the attending physician.)"

/-- `guardrails.build_safety_envelope`. -/
def build_safety_envelope (analysis : QuestionAnalysisResult) : SafetyEnvelope :=
  if analysis.safety = SafetyLevel.escalate then
    { level := analysis.safety,
      banner_title := ("의료 에스컬레이션 필요"),
      banner_body := ("이 질문은 의료 전문가의 직접적인 판단이 필요한 주제입니다."),
      escalation_copy := escalationSentenceKo ++ (" ") ++ escalationSentence,
      answer_override := some escalateOverrideAnswer }
  else if analysis.safety = SafetyLevel.caution then
    { level := analysis.safety,
      banner_title := ("의학적 주의가 필요한 내용"),
      banner_body := ("상담 시 근거 자료를 강조하며 의료진 확인이 필요함을 함께 안내하세요."),
      escalation_copy := escalationSentenceKo ++ (" ") ++ escalationSentence,
      answer_override := none }
  else
    { level := analysis.safety, banner_title := (""), banner_body := (""),
      escalation_copy := (""), answer_override := none }

/-- An AG-UI observation message (`_append_ag_message` dict). -/
structure AgMessage where
  role : String
  title : String
  content : String
  deriving Repr, DecidableEq

/-- `guardrails.scrub_observations` (all observations produced by the pipeline
are structured AG-UI dicts with string `title`/`content`). -/
def scrub_observations (observations : List AgMessage) : List AgMessage :=
  observations.map (fun item =>
    { item with content := scrub_text item.content, title := scrub_text item.title })

/-- `guardrails.append_caution_guidance`. -/
def append_caution_guidance (answer : String) (envelope : SafetyEnvelope) : String :=
  let guidance := pyStrip envelope.escalation_copy
  if guidance = ("") then answer
  else if pyIn guidance answer then answer
  else if pyEndsWith answer (".") then answer ++ (" ") ++ guidance
  else answer ++ (". ") ++ guidance

/-! ### ingestion/models.py — `Chunk` -/

/-- `Chunk` (slots dataclass).  `score` is the query-scoped relevance
(`None` until a retriever annotates it); `metadata` is an insertion-ordered
string map. -/
structure Chunk where
  chunk_id : String
  document_id : String
  section_path : List String
  source_path : String
  text : String
  token_count : ℕ
  embedding : Option (List ℚ) := none
  score : Option ℚ := none
  metadata : List (String × String) := []
  deriving Repr, DecidableEq

/-- `getattr(item, "score", 0.0) or 0.0` — the sort key used by the merge
steps (`None` and `0.0` both collapse to `0.0`). -/
def scoreOrZero (c : Chunk) : ℚ :=
  c.score.getD 0

/-! ### cache/faq.py — `FAQCache` (string-matching similarity path)

`FAQCache.get` dispatches on whether the optional `sentence_transformers`
backbone imported; the embedding path delegates similarity to that external
model.  The deterministic fallback path (`_get_with_string_match`), which the
testable properties cite, is embedded in full.  Timestamps are seconds (`ℤ`);
`timedelta(days=d)` is `d * 86400`. -/

/-- A cached FAQ entry (`answer`, `cached_at`, `ttl_days`). -/
structure FAQEntry where
  answer : String
  cached_at : ℤ
  ttl_days : ℤ
  deriving Repr, DecidableEq

/-- `FAQCache._is_valid`: `datetime.now() - cached_at < timedelta(days=ttl_days)`. -/
def faq_is_valid (now : ℤ) (entry : FAQEntry) : Bool :=
  now - entry.cached_at < entry.ttl_days * 86400

/-- The word set of a question as `_get_with_string_match` builds it:
`set(question.lower().strip().split())`. -/
def faqWordSet (question : String) : List String :=
  (pySplit (pyLower question)).dedup

/-- Jaccard similarity of two word sets (`len(q & c) / len(q | u)` as exact
division; the caller guards `union > 0`). -/
def jaccard (qWords cWords : List String) : ℚ :=
  let inter := qWords.filter (fun w => cWords.contains w)
  let union := qWords ++ cWords.filter (fun w => !(qWords.contains w))
  if union.length > 0 then mkRat inter.length union.length else 0

/-- One pass of the `for cached_question, cached_data in self.cache.items()`
loop of `_get_with_string_match`.  On a sufficiently similar but expired
entry the source deletes the entry from the dict it is iterating and then
continues the loop — CPython raises
`RuntimeError: dictionary changed size during iteration` at the next step of
the iterator. -/
def faqStringMatchLoop (now : ℤ) (threshold : ℚ) (qWords : List String) :
    List (String × FAQEntry) → Except PyErr (Option String)
  | [] => Except.ok none
  | (cached_question, cached_data) :: rest =>
    let cWords := faqWordSet cached_question
    if qWords.isEmpty || cWords.isEmpty then
      faqStringMatchLoop now threshold qWords rest
    else
      let similarity := jaccard qWords cWords
      if similarity ≥ threshold then
        if faq_is_valid now cached_data then
          Except.ok (some cached_data.answer)
        else
          Except.error (PyErr.runtimeError ("dictionary changed size during iteration"))
      else
        faqStringMatchLoop now threshold qWords rest

/-- `FAQCache._get_with_string_match` (with the leading
`if not self.questions: return None` guard of `FAQCache.get`). -/
def faq_get_string_match (now : ℤ) (cache : List (String × FAQEntry))
    (question : String) (similarity_threshold : ℚ) : Except PyErr (Option String) :=
  if cache.isEmpty then Except.ok none
  else faqStringMatchLoop now similarity_threshold (faqWordSet question) cache

/-- `FAQCache.set` (file persistence and embedding rebuild are I/O on the
external store; the dict update is what the properties concern). -/
def faq_set (now : ℤ) (cache : List (String × FAQEntry)) (question answer : String)
    (ttl_days : ℤ) : List (String × FAQEntry) :=
  pySetItem cache question { answer := answer, cached_at := now, ttl_days := ttl_days }

/-- `FAQCache.populate_defaults` — the five predefined entries, in the
insertion order of the dict literal (adjacent Python string literals are
concatenated). -/
def faqDefaultEntries (now : ℤ) : List (String × FAQEntry) :=
  [(("운동은 얼마나 해야 하나요?"),
    { answer := ("대한비만학회 가이드라인에 따르면, 주 150분 이상의 중강도 유산소 운동을 권장합니다. ") ++
        ("이를 주 5일로 나누면 하루 30분씩 걷기나 자전거 타기를 하시면 좋습니다. ") ++
        ("근력운동은 주 2-3회 추가하시면 더욱 효과적입니다."),
      cached_at := now, ttl_days := 90 }),
   (("혈당 목표치는 얼마인가요?"),
    { answer := ("공복혈당은 100mg/dL 미만이 정상입니다. 100-125mg/dL은 당뇨병 전단계, ") ++
        ("126mg/dL 이상이면 당뇨병으로 진단됩니다. 개인별 목표는 담당 의사와 상담하세요."),
      cached_at := now, ttl_days := 90 }),
   (("어떤 식단이 좋나요?"),
    { answer := ("채소, 통곡물, 저지방 단백질을 중심으로 한 균형 잡힌 식단을 권장합니다. ") ++
        ("하루 3끼 규칙적으로 드시고, 가공식품과 고염분 식품은 피하세요. ") ++
        ("야채는 매끼 2접시 이상, 과일은 하루 1-2회 적당량 섭취하시면 좋습니다."),
      cached_at := now, ttl_days := 90 }),
   (("허리둘레가 왜 중요한가요?"),
    { answer := ("허리둘레는 복부비만을 나타내는 중요한 지표입니다. ") ++
        ("남성은 90cm, 여성은 85cm 이상일 때 대사증후군 위험이 높아집니다. ") ++
        ("복부지방은 인슐린 저항성과 심혈관 질환 위험을 증가시킵니다."),
      cached_at := now, ttl_days := 90 }),
   (("대사증후군이란 무엇인가요?"),
    { answer := ("대사증후군은 복부비만, 고혈압, 고혈당, 고중성지방, 저HDL 콜레스테롤 중 ") ++
        ("3가지 이상을 동시에 가진 상태를 말합니다. 당뇨병과 심혈관 질환의 위험이 높아집니다. ") ++
        ("생활습관 개선으로 관리할 수 있습니다."),
      cached_at := now, ttl_days := 90 })]

/-! ### providers/llm.py — `LLMClient`

`get_small_llm()` / `get_main_llm()` always return an `LLMClient` instance
(never `None`), so every `if self.small_llm:` / `if self.main_llm:` truthiness
test in the pipeline succeeds.  The class defines exactly one public method,
`complete` — there is no `invoke`. -/

/-- `LLMClient`: `enabled` is whether an OpenAI client was constructed;
`respond` is the external completion API; `fallback` the canned local
fallback. -/
structure LLMClient where
  model_name : String
  enabled : Bool
  respond : String → String
  fallback : String → String

/-- The public method table of `LLMClient` as written in `providers/llm.py`. -/
def llmClientMethods : List String :=
  [("complete")]

/-- `LLMClient.complete`. -/
def LLMClient.complete (c : LLMClient) (prompt : String) : String :=
  if c.enabled then pyStrip (c.respond prompt) else c.fallback prompt

/-! ### retrievers/vector.py — `VectorRetriever`

The remote pgvector query and the local cosine-similarity fallback both reach
external collaborators (the database, the embedding provider); they are
parameters of the embedding.  Every access to either path is recorded in an
explicit access trace, so that "the early return contacts neither store" is a
statement about the trace. -/

/-- A contact with one of the retriever's two internal paths. -/
inductive RetrievalAccess where
  /-- `_retrieve_from_database` ran (remote pgvector query). -/
  | remote
  /-- `_retrieve_from_cache` ran (local in-memory fallback). -/
  | cache
  deriving Repr, DecidableEq

/-- The `VectorRetriever` dependencies: whether `self._database_url` is set
(together with `psycopg is not None`), the remote query (which may raise —
the exception is caught and degrades to the fallback), and the local
fallback scoring. -/
structure VectorRetrieverEnv where
  hasDatabaseUrl : Bool
  remote : String → ℤ → Except PyErr (List Chunk)
  localCache : String → ℤ → List Chunk

/-- `VectorRetriever.retrieve`: early return on `limit <= 0`, then remote
(errors caught, empty results fall through), then local fallback.  The second
component is the access trace. -/
def VectorRetriever.retrieve (env : VectorRetrieverEnv) (query : String) (limit : ℤ) :
    List Chunk × List RetrievalAccess :=
  if limit ≤ 0 then ([], [])
  else
    let dbStep : Option (List Chunk) × List RetrievalAccess :=
      if env.hasDatabaseUrl then
        match env.remote query limit with
        | Except.ok results =>
          (if results.isEmpty then none else some results, [RetrievalAccess.remote])
        | Except.error _ => (none, [RetrievalAccess.remote])
      else (none, [])
    match dbStep with
    | (some results, trace) => (results, trace)
    | (none, trace) => (env.localCache query limit, trace ++ [RetrievalAccess.cache])

/-- `VectorRetriever.retrieve_async`: identical control flow (the executor
offloading has no observable effect on the result or on which paths run). -/
def VectorRetriever.retrieve_async (env : VectorRetrieverEnv) (query : String) (limit : ℤ) :
    List Chunk × List RetrievalAccess :=
  if limit ≤ 0 then ([], [])
  else
    let dbStep : Option (List Chunk) × List RetrievalAccess :=
      if env.hasDatabaseUrl then
        match env.remote query limit with
        | Except.ok results =>
          (if results.isEmpty then none else some results, [RetrievalAccess.remote])
        | Except.error _ => (none, [RetrievalAccess.remote])
      else (none, [])
    match dbStep with
    | (some results, trace) => (results, trace)
    | (none, trace) => (env.localCache query limit, trace ++ [RetrievalAccess.cache])

/-! ### orchestrator/pipeline.py — `RetrievalPipeline`

The LangGraph state dict becomes a record of optional fields; each node is a
function on it (fallible nodes return `Except PyErr`).  Stage durations are
wall-clock readings with no property depending on them; they are embedded as
`0`.  The retriever singletons and the resolved FAQ-cache lookup are
parameters (they wrap external stores). -/

/-- The strategy descriptor dict returned by `_select_strategy`. -/
structure StrategyConfig where
  name : String
  vector_k : Option ℤ := none
  graph_k : Option ℤ := none
  sub_limit : Option ℤ := none
  deriving Repr, DecidableEq

/-- `RetrievalPipeline._select_strategy`. -/
def select_strategy (analysis : QuestionAnalysisResult) (question : String)
    (_context : Option String) (mode : String) : StrategyConfig :=
  let complexity := pyLower analysis.complexity
  let question_trimmed := pyStrip question
  let connectors : List String :=
    [("그리고"), ("및"), ("또"), ("동시에"), ("고 "), (" 고 "), ("며"), (" 와 "), (" 과 ")]
  let relationship_keywords : List String :=
    [("관계"), ("영향"), ("연관"), ("비교"), ("차이"), ("상관"), ("함께"), ("동시에")]
  let contains_connector := connectors.any (fun connector => pyIn connector question_trimmed)
  let contains_relationship :=
    relationship_keywords.any (fun keyword => pyIn keyword question_trimmed)
  let multiple_questions := pyCountChar question_trimmed '?' ≥ 2
  let vector_k_simple : ℤ := if mode = ("live") then 3 else 5
  let vector_k_complex : ℤ := if mode = ("live") then 5 else 7
  let graph_k : ℤ := if mode = ("live") then 5 else 7
  let sub_limit : ℤ := if mode = ("live") then 5 else 7
  if complexity = ("simple") then
    if contains_relationship then
      { name := ("graph"), graph_k := some graph_k }
    else if contains_connector || multiple_questions || question_trimmed.data.length ≥ 100 then
      { name := ("decompose"), sub_limit := some sub_limit }
    else
      { name := ("vector"), vector_k := some vector_k_simple }
  else if complexity = ("multi-hop") then
    if contains_relationship || contains_connector then
      { name := ("graph"), graph_k := some graph_k }
    else
      { name := ("vector"), vector_k := some vector_k_complex }
  else
    { name := ("decompose"), sub_limit := some sub_limit }

/-- `RetrievalPipeline._determine_question_type` (static). -/
def determine_question_type (text : String) : String :=
  let text := pyLower text
  let relationship_keywords : List String :=
    [("관계"), ("영향"), ("연관"), ("비교"), ("차이"), ("상관"), ("같이"), ("함께"), ("동시에")]
  let connectors : List String := [("그리고"), ("및"), ("또"), ("동시에"), ("하지만")]
  if relationship_keywords.any (fun keyword => pyIn keyword text) ||
      connectors.any (fun connector => pyIn connector text) then
    ("graph")
  else if pyIn ("네트워크") text || pyIn ("연결") text then
    ("graph")
  else
    ("vector")

/-- Insertion step of the stable descending sort: a chunk goes after every
already-placed chunk whose score is at least its own (so equal scores keep
their original relative order). -/
def insertByScoreDesc (x : Chunk) : List Chunk → List Chunk
  | [] => [x]
  | y :: rest =>
    if scoreOrZero x ≤ scoreOrZero y then y :: insertByScoreDesc x rest
    else x :: y :: rest

/-- Stable descending sort by `getattr(item, "score", 0.0) or 0.0` — the
semantics of CPython `list.sort(key=…, reverse=True)` (descending scores,
ties in original order), realised as an insertion sort. -/
def sortByScoreDesc (chunks : List Chunk) : List Chunk :=
  chunks.foldl (fun sorted x => insertByScoreDesc x sorted) []

/-- The shared dedup-and-cap loop of `_node_merge_evidence` and
`_node_decompose`: walk the list, skip chunk ids already seen, append
otherwise, and break once the output length reaches `max_evidence` (the
check runs after the append, so a non-positive cap still lets one chunk
through).  `seen`/`count` mirror the loop state. -/
def dedupCapAux (max_evidence : ℤ) : List Chunk → List String → ℕ → List Chunk
  | [], _, _ => []
  | chunk :: rest, seen, count =>
    if seen.contains chunk.chunk_id then
      dedupCapAux max_evidence rest seen count
    else if max_evidence ≤ ((count : ℤ) + 1) then
      [chunk]
    else
      chunk :: dedupCapAux max_evidence rest (chunk.chunk_id :: seen) (count + 1)

/-- Lines 595–604 of `_node_decompose`: dedup the concatenated sub-question
results by `chunk_id` (first occurrence wins) and cap at `max_evidence`. -/
def decompose_dedup (max_evidence : ℤ) (evidence : List Chunk) : List Chunk :=
  dedupCapAux max_evidence evidence [] 0

/-- The else-branch of `_node_merge_evidence`: concatenate vector + graph
results, sort descending by score, dedup by `chunk_id` keeping the first
occurrence, cap at `max_evidence`. -/
def merge_evidence (max_evidence : ℤ) (vector_results graph_results : List Chunk) :
    List Chunk :=
  dedupCapAux max_evidence (sortByScoreDesc (vector_results ++ graph_results)) [] 0

/-- The pipeline with its external dependencies made explicit. -/
structure RetrievalPipeline where
  /-- `settings.safety_latency_budget` (seconds). -/
  latency_budget : ℚ := 2
  /-- The observed wall-clock classification latency (ms) of this request. -/
  classifier_latency_ms : ℚ := 0
  /-- `VECTOR_TOP_K` (default 3). -/
  default_vector_top_k : ℤ := 3
  /-- `GRAPH_TOP_K` (default 5). -/
  graph_top_k : ℤ := 5
  /-- `EVIDENCE_LIMIT` (default 5). -/
  max_evidence : ℤ := 5
  /-- `self.faq_cache.get(·, similarity_threshold=0.85)` resolved over the
  cache contents and similarity backend in effect for this process. -/
  faqGet : String → Except PyErr (Option String)
  /-- `self.vector_retriever.retrieve` (remote store + local fallback). -/
  vectorRetrieve : String → ℤ → List Chunk
  /-- `self.graph_retriever.retrieve` (remote store + local fallback). -/
  graphRetrieve : String → ℤ → List Chunk
  /-- `get_small_llm()` — always an `LLMClient` instance. -/
  small_llm : LLMClient
  /-- `get_main_llm()` — always an `LLMClient` instance. -/
  main_llm : LLMClient

/-- The LangGraph state dict. -/
structure PState where
  question : String
  context : Option String
  mode : String
  observations : List AgMessage := []
  timing_entries : List (String × ℚ) := []
  analysis : Option QuestionAnalysisResult := none
  strategy : Option String := none
  strategy_config : Option StrategyConfig := none
  safety : Option SafetyEnvelope := none
  rewritten_question : Option String := none
  vector_results : List Chunk := []
  graph_results : List Chunk := []
  evidence : Option (List Chunk) := none
  answer : Option String := none
  citations : Option (List String) := none
  subquestions : List String := []

/-- `_append_ag_message`. -/
def appendAg (s : PState) (role title content : String) : List AgMessage :=
  s.observations ++ [{ role := role, title := title, content := content }]

/-- `state.get("rewritten_question") or state["question"]` (Python `or`:
a `None` or empty rewritten question falls back to the original). -/
def questionOrRewritten (s : PState) : String :=
  match s.rewritten_question with
  | some r => if r = ("") then s.question else r
  | none => s.question

/-- `RetrievalPipeline._node_analyze`. -/
def node_analyze (p : RetrievalPipeline) (s : PState) : PState :=
  let analysis := analyze p.latency_budget p.classifier_latency_ms s.question s.context
  let obs1 := appendAg s ("reasoning") ("질문 분석")
    ((("도메인: ") ++ analysis.domain) ++ ((", 복잡도: ") ++ analysis.complexity) ++
      ((", 안전도: ") ++ analysis.safety.value))
  let strat := select_strategy analysis s.question s.context s.mode
  let obs2 := obs1 ++
    [{ role := ("action"), title := ("검색 전략 선택"),
       content := (("선택된 전략: ") ++ strat.name) ++ ((" (모드: ") ++ s.mode) ++ (")") }]
  { s with
    analysis := some analysis, observations := obs2,
    strategy := some strat.name, strategy_config := some strat,
    timing_entries := s.timing_entries ++ [(("analysis"), 0)] }

/-- `RetrievalPipeline._node_safety` (reads `state["analysis"]`). -/
def node_safety (s : PState) : Except PyErr PState :=
  match s.analysis with
  | none => Except.error (PyErr.keyError ("analysis"))
  | some analysis =>
    let envelope := build_safety_envelope analysis
    let obs := appendAg s ("action") ("안전성 검증") (("안전 수준: ") ++ analysis.safety.value)
    let base := { s with
      safety := some envelope, observations := obs,
      timing_entries := s.timing_entries ++ [(("safety"), 0)] }
    if analysis.safety = SafetyLevel.escalate then
      Except.ok { base with
        answer := some (envelope.answer_override.getD ("")),
        citations := some [], evidence := some [] }
    else
      Except.ok base

/-- `RetrievalPipeline._route_after_safety` (reads `state["safety"]`). -/
def route_after_safety (s : PState) : Except PyErr String :=
  match s.safety with
  | none => Except.error (PyErr.keyError ("safety"))
  | some envelope =>
    if envelope.level = SafetyLevel.escalate then Except.ok ("escalate")
    else if s.mode = ("preparation") then Except.ok ("proceed_prep")
    else Except.ok ("proceed_live")

/-- `RetrievalPipeline._route_post_rewrite`. -/
def route_post_rewrite (s : PState) : String :=
  if s.strategy = some ("decompose") then ("decompose")
  else if s.strategy = some ("graph") then ("graph")
  else ("vector")

/-- `RetrievalPipeline._route_post_vector` (unconditionally `merge`). -/
def route_post_vector (_s : PState) : String :=
  ("merge")

/-- `RetrievalPipeline._rewrite_question`: a no-op (modulo `strip()`) for the
`vector` strategy.  For every other strategy the source runs
`self.small_llm.invoke([...])`; `small_llm` is an `LLMClient` instance
(always truthy) and `LLMClient` defines no `invoke` — the attribute lookup
raises, so the mapped value below is never produced. -/
def rewrite_question (_p : RetrievalPipeline) (question : String)
    (_analysis : QuestionAnalysisResult) (strategy : String) : Except PyErr String :=
  let normalized := pyStrip question
  if strategy = ("vector") then
    Except.ok normalized
  else
    (pyGetMethod ("LLMClient") llmClientMethods ("invoke")).map (fun _ => normalized)

/-- `RetrievalPipeline._node_rewrite`. -/
def node_rewrite (p : RetrievalPipeline) (s : PState) : Except PyErr PState :=
  match s.analysis with
  | none => Except.error (PyErr.keyError ("analysis"))
  | some analysis =>
    let strategy := s.strategy.getD ("vector")
    match rewrite_question p s.question analysis strategy with
    | Except.error e => Except.error e
    | Except.ok rewritten =>
      let obs := appendAg s ("action") ("질문 재작성") (("재작성된 질문: ") ++ rewritten)
      Except.ok { s with
        rewritten_question := some rewritten, observations := obs,
        timing_entries := s.timing_entries ++ [(("rewrite"), 0)] }

/-- `RetrievalPipeline._node_vector_retrieval`. -/
def node_vector_retrieval (p : RetrievalPipeline) (s : PState) : PState :=
  if s.strategy ≠ some ("vector") then
    { s with
      vector_results := [],
      observations := appendAg s ("action") ("Vector 검색") ("전략에 따라 건너뜀") }
  else
    let query := questionOrRewritten s
    let vector_k := (s.strategy_config.bind (·.vector_k)).getD p.default_vector_top_k
    let results := p.vectorRetrieve query vector_k
    { s with
      vector_results := results,
      observations := appendAg s ("action") ("Vector 검색 실행") ("관련 문서를 찾았습니다"),
      timing_entries := s.timing_entries ++ [(("retrieval_vector"), 0)] }

/-- `RetrievalPipeline._node_graph_retrieval`. -/
def node_graph_retrieval (p : RetrievalPipeline) (s : PState) : PState :=
  if s.strategy ≠ some ("graph") then
    { s with
      graph_results := [],
      observations := appendAg s ("action") ("Graph 검색") ("전략에 따라 건너뜀") }
  else
    let query := questionOrRewritten s
    let graph_k := (s.strategy_config.bind (·.graph_k)).getD p.graph_top_k
    let results := p.graphRetrieve query graph_k
    { s with
      graph_results := results,
      observations := appendAg s ("action") ("Graph 검색 실행") ("관계 문서를 찾았습니다"),
      timing_entries := s.timing_entries ++ [(("retrieval_graph"), 0)] }

/-- `RetrievalPipeline._node_merge_evidence`. -/
def node_merge_evidence (p : RetrievalPipeline) (s : PState) : PState :=
  let evidenceTruthy := match s.evidence with
    | some (_ :: _) => true
    | _ => false
  if s.strategy = some ("decompose") ∧ evidenceTruthy = true then
    { s with
      evidence := some (s.evidence.getD []),
      observations := appendAg s ("observation") ("증거 병합") ("분해된 질문의 증거를 재사용") }
  else
    let merged := merge_evidence p.max_evidence s.vector_results s.graph_results
    { s with
      evidence := some merged,
      observations := appendAg s ("observation") ("증거 병합 완료") ("병합 결과") }

/-- The fixed generic-guidance message `_synthesize_answer` returns when no
evidence is available (adjacent Python literals concatenated). -/
def noEvidenceMessage : String :=
  ("현재 확보된 자료에서 직접적인 근거를 찾지 못했습니다. ") ++
    ("일반적인 생활습관 가이드라인을 참고하시고, 필요 시 담당 의사와 상담해 주세요.")

/-- `RetrievalPipeline._synthesize_answer`.  With empty evidence the fixed
generic-guidance message is returned with empty citations — that branch never
references the LLM (the result below is one constant for every pipeline).
With non-empty evidence the source runs `self.main_llm.invoke([...])`;
`LLMClient` has no `invoke`, so the lookup raises and the mapped value is
never produced. -/
def synthesize_answer (_p : RetrievalPipeline) (_question : String)
    (_analysis : QuestionAnalysisResult) (evidence : List Chunk) (_strategy : String) :
    Except PyErr (String × List String) :=
  let citations := evidence.map (fun chunk => (("[") ++ chunk.chunk_id) ++ ("]"))
  match evidence with
  | _ :: _ =>
    (pyGetMethod ("LLMClient") llmClientMethods ("invoke")).map (fun _ => ((""), citations))
  | [] => Except.ok (noEvidenceMessage, [])

/-- `RetrievalPipeline._node_synthesize`. -/
def node_synthesize (p : RetrievalPipeline) (s : PState) : Except PyErr PState :=
  match s.analysis with
  | none => Except.error (PyErr.keyError ("analysis"))
  | some analysis =>
    let evidence := s.evidence.getD []
    match synthesize_answer p s.question analysis evidence (s.strategy.getD ("vector")) with
    | Except.error e => Except.error e
    | Except.ok (answer, citations) =>
      Except.ok { s with
        answer := some answer, citations := some citations,
        observations := appendAg s ("observation") ("답변 생성 완료") ("답변을 생성했습니다"),
        timing_entries := s.timing_entries ++ [(("synthesis"), 0)] }

/-- `RetrievalPipeline._decompose_question`: runs `self.small_llm.invoke([...])`
first; `LLMClient` has no `invoke`, so the lookup raises.  The candidate
parsing and the heuristic connector/`?` splitting below it in the source are
unreachable and not embedded. -/
def decompose_question (_p : RetrievalPipeline) (question : String)
    (_analysis : QuestionAnalysisResult) : Except PyErr (List String) :=
  (pyGetMethod ("LLMClient") llmClientMethods ("invoke")).map (fun _ => [pyStrip question])

/-- `RetrievalPipeline._retrieve_with_fallback`: primary-backend-first,
fallback-on-empty, then sort by score and cap at `limit` (`limit` is the
positive `sub_limit` here, so the Python slice is a plain take). -/
def retrieve_with_fallback (p : RetrievalPipeline) (query : String) (limit : ℤ)
    (primary : String) : List Chunk :=
  let hits :=
    if primary = ("graph") then
      let h := p.graphRetrieve query limit
      if h.isEmpty then p.vectorRetrieve query limit else h
    else
      let h := p.vectorRetrieve query limit
      if h.isEmpty then p.graphRetrieve query limit else h
  (sortByScoreDesc hits).take limit.toNat

/-- Chunk enrichment inside `_node_decompose`'s gather loop: tag each result
copy with its originating sub-question and (by `setdefault`) retrieval path. -/
def enrichChunk (subquestion search_type : String) (chunk : Chunk) : Chunk :=
  let md := pySetItem chunk.metadata ("subquestion") subquestion
  let md := if (pyGetItem md ("retrieval")).isSome then md
    else pySetItem md ("retrieval") search_type
  { chunk with metadata := md }

/-- The concurrent fan-out of `_node_decompose`: results are flattened in task
submission order (`zip(tasks, results)` over `asyncio.gather`, which preserves
order). -/
def decomposeRetrieveAll (p : RetrievalPipeline) (limit : ℤ)
    (subquestions : List String) : List Chunk :=
  subquestions.flatMap (fun subquestion =>
    let search_type := determine_question_type subquestion
    (retrieve_with_fallback p subquestion limit search_type).map
      (enrichChunk subquestion search_type))

/-- `RetrievalPipeline._node_decompose`. -/
def node_decompose (p : RetrievalPipeline) (s : PState) : Except PyErr PState :=
  match s.analysis with
  | none => Except.error (PyErr.keyError ("analysis"))
  | some analysis =>
    let question := questionOrRewritten s
    match decompose_question p question analysis with
    | Except.error e => Except.error e
    | Except.ok subquestions =>
      let limit := (s.strategy_config.bind (·.sub_limit)).getD 5
      let evidence := decomposeRetrieveAll p limit subquestions
      let deduped := decompose_dedup p.max_evidence evidence
      Except.ok { s with
        subquestions := subquestions, evidence := some deduped,
        observations := appendAg s ("action") ("질문 분해 및 병렬 검색") ("병렬 실행"),
        timing_entries := s.timing_entries ++ [(("decompose"), 0)] }

/-- `RetrievalPipeline._node_prep_analyze_patient`: the first preparation node
runs `self.main_llm.invoke([...])`; `LLMClient` has no `invoke`, so the lookup
raises and the mapped state is never produced. -/
def node_prep_analyze_patient (_p : RetrievalPipeline) (s : PState) : Except PyErr PState :=
  (pyGetMethod ("LLMClient") llmClientMethods ("invoke")).map (fun _ => s)

/-- The compiled LangGraph: `analysis → safety → [escalate: END | live:
rewrite → strategy route → retrieval(s) → merge → synthesize | preparation:
prep chain]`.  The five preparation nodes after the first are unreachable
(the first raises) and are not embedded. -/
def graph_invoke (p : RetrievalPipeline) (s0 : PState) : Except PyErr PState :=
  let s1 := node_analyze p s0
  match node_safety s1 with
  | Except.error e => Except.error e
  | Except.ok s2 =>
    match route_after_safety s2 with
    | Except.error e => Except.error e
    | Except.ok route =>
      if route = ("escalate") then
        Except.ok s2
      else if route = ("proceed_prep") then
        node_prep_analyze_patient p s2
      else
        match node_rewrite p s2 with
        | Except.error e => Except.error e
        | Except.ok s3 =>
          let route2 := route_post_rewrite s3
          if route2 = ("decompose") then
            match node_decompose p s3 with
            | Except.error e => Except.error e
            | Except.ok s4 => node_synthesize p s4
          else if route2 = ("graph") then
            node_synthesize p (node_merge_evidence p (node_graph_retrieval p s3))
          else
            let s4 := node_vector_retrieval p s3
            if route_post_vector s4 = ("graph") then
              node_synthesize p (node_merge_evidence p (node_graph_retrieval p s4))
            else
              node_synthesize p (node_merge_evidence p s4)

/-- `RetrievalOutput` (the `preparation_analysis` field is omitted: the
preparation chain is unreachable — its first node raises). -/
structure RetrievalOutput where
  analysis : QuestionAnalysisResult
  answer : String
  citations : List String
  observations : List AgMessage
  safety : SafetyEnvelope
  timings : List (String × ℚ)
  evidence : List Chunk := []
  deriving Repr, DecidableEq

/-- `RetrievalPipeline.run`.  In live mode the FAQ cache is consulted first;
on a (truthy) hit the source constructs
`QuestionAnalysisResult(domain=…, complexity=…, strategy=…, safety=…,
reasoning=…)` — `strategy` and `reasoning` are not fields of that dataclass,
so the construction raises `TypeError` (the enclosed
`SafetyEnvelope(level=…, guidance=…, scrubbed=…)` call would fail the same
way).  On a miss the graph runs; the final answer is assembled with optional
caution guidance and PII scrubbing. -/
def RetrievalPipeline.run (p : RetrievalPipeline) (question : String)
    (context : Option String) (mode : String) : Except PyErr RetrievalOutput :=
  let cacheStep : Except PyErr (Option String) :=
    if mode = ("live") then p.faqGet question else Except.ok none
  match cacheStep with
  | Except.error e => Except.error e
  | Except.ok cachedOpt =>
    let hit := match cachedOpt with
      | some cached_answer => cached_answer != ("")
      | none => false
    if hit then
      match pyDataclassKwargsCheck ("QuestionAnalysisResult") questionAnalysisResultFields
          [("domain"), ("complexity"), ("strategy"), ("safety"), ("reasoning")] with
      | Except.error e => Except.error e
      | Except.ok _ => Except.error (PyErr.typeError ("unreachable"))
    else
      match graph_invoke p { question := question, context := context, mode := mode } with
      | Except.error e => Except.error e
      | Except.ok st =>
        let timings1 := st.timing_entries.foldl (fun d e => pySetItem d e.1 e.2) []
        let timings2 := pySetItem timings1 ("total") 0
        let timings3 :=
          if (pyGetItem timings2 ("retrieval")).isSome then timings2
          else
            pySetItem timings2 ("retrieval")
              (((pyGetItem timings2 ("retrieval_vector")).getD 0) +
                ((pyGetItem timings2 ("retrieval_graph")).getD 0))
        match st.analysis, st.safety with
        | some analysis, some safety =>
          if mode = ("preparation") then
            Except.ok {
              analysis := analysis, answer := (""), citations := [],
              observations := scrub_observations st.observations, safety := safety,
              timings := timings3, evidence := [] }
          else
            let evidence := st.evidence.getD []
            let answer0 := st.answer.getD ("")
            let citations := st.citations.getD []
            let answer1 :=
              if analysis.safety = SafetyLevel.caution ∧ safety.level ≠ SafetyLevel.escalate then
                append_caution_guidance answer0 safety
              else answer0
            Except.ok {
              analysis := analysis, answer := scrub_text answer1,
              citations := citations, observations := scrub_observations st.observations,
              safety := safety, timings := timings3, evidence := evidence }
        | _, _ => Except.error (PyErr.keyError ("analysis"))

/-! ### Specification-side definitions

These formalise the spec's wording (the decision table, the testable
properties) to compare against the source-derived functions above. -/

/-- "question contains an escalate-tier safety keyword" (the keyword tier of
`_detect_safety`, which is checked first and short-circuits). -/
def containsEscalateKeyword (text : String) : Bool :=
  safetyEscalateKeywords.any (fun keyword => pyIn keyword text)

/-- The relationship-keyword signal exactly as `_select_strategy` computes it. -/
def relationshipSignal (question_trimmed : String) : Bool :=
  [("관계"), ("영향"), ("연관"), ("비교"), ("차이"), ("상관"), ("함께"), ("동시에")].any
    (fun keyword => pyIn keyword question_trimmed)

/-- The connector signal exactly as `_select_strategy` computes it. -/
def connectorSignal (question_trimmed : String) : Bool :=
  [("그리고"), ("및"), ("또"), ("동시에"), ("고 "), (" 고 "), ("며"), (" 와 "), (" 과 ")].any
    (fun connector => pyIn connector question_trimmed)

/-- "≥2 question marks" exactly as `_select_strategy` computes it. -/
def multipleQuestionsSignal (question_trimmed : String) : Bool :=
  pyCountChar question_trimmed '?' ≥ 2

/-- "long text"exactly as `_select_strategy` computes it (≥ 100 characters). -/
def longTextSignal (question_trimmed : String) : Bool :=
  question_trimmed.data.length ≥ 100

/-- The spec's strategy decision table, evaluated top-down per complexity
bucket:
simple+relationship → graph; simple+connector/≥2 "?"/long → decompose;
simple otherwise → vector; multi-hop + (relationship or connector) → graph;
multi-hop otherwise → vector (wider top-k); compound/other → decompose. -/
def specStrategyTable (complexity : String) (rel conn multi long : Bool) : String :=
  if complexity = ("simple") then
    if rel then ("graph")
    else if conn || multi || long then ("decompose")
    else ("vector")
  else if complexity = ("multi-hop") then
    if rel || conn then ("graph") else ("vector")
  else
    ("decompose")

/-- The spec's `live`/`preparation` simple-path vector top-k. -/
def specVectorKSimple (mode : String) : ℤ :=
  if mode = ("live") then 3 else 5

/-- The spec's `live`/`preparation` multi-hop ("wider") vector top-k. -/
def specVectorKComplex (mode : String) : ℤ :=
  if mode = ("live") then 5 else 7

/-- "the score sequence is non-increasing" (missing scores read as 0). -/
def scoresNonIncreasing (l : List Chunk) : Prop :=
  List.Chain' (fun a b => scoreOrZero b ≤ scoreOrZero a) l

/-- The pairwise form of the descending-score order used by the sort lemmas. -/
def scoreGE (a b : Chunk) : Prop :=
  scoreOrZero b ≤ scoreOrZero a

/-! ### Concrete fixtures for witnesses, counterexamples and failing inputs -/

/-- An `LLMClient` as built without `OPENAI_API_KEY` (offline fallback). -/
def offlineLLM : LLMClient :=
  { model_name := ("gpt-5-nano"), enabled := false,
    respond := fun _ => (""), fallback := fun prompt => pyStrip prompt }

/-- A retrieval chunk fixture (graph keyword-fallback style integer score 1). -/
def chunkA : Chunk :=
  { chunk_id := ("guide:0001"), document_id := ("guide"),
    section_path := [("운동")], source_path := ("guide.md"),
    text := ("주 150분 이상의 중강도 유산소 운동을 권장합니다"), token_count := 8,
    score := some 1, metadata := [] }

/-- A second chunk fixture with a higher score 9. -/
def chunkB : Chunk :=
  { chunk_id := ("guide:0002"), document_id := ("guide"),
    section_path := [("식단")], source_path := ("guide.md"),
    text := ("채소와 통곡물 중심의 식단을 권장합니다"), token_count := 7,
    score := some 9, metadata := [] }

/-- A question analysis fixture (clear, simple, exercise). -/
def sampleAnalysis : QuestionAnalysisResult :=
  { domain := ("exercise"), complexity := ("simple"), safety := SafetyLevel.clear,
    reasons := [], latency_ms := 0 }

/-- A pipeline over an empty FAQ cache and empty retrieval stores. -/
def emptyCachePipeline : RetrievalPipeline :=
  { faqGet := fun question => faq_get_string_match 0 [] question (mkRat 85 100),
    vectorRetrieve := fun _ _ => [], graphRetrieve := fun _ _ => [],
    small_llm := offlineLLM, main_llm := offlineLLM }

/-- A pipeline whose FAQ cache holds the five default entries (string-match
similarity backend, threshold 0.85, read at the population instant). -/
def defaultCachePipeline : RetrievalPipeline :=
  { faqGet := fun question =>
      faq_get_string_match 0 (faqDefaultEntries 0) question (mkRat 85 100),
    vectorRetrieve := fun _ _ => [], graphRetrieve := fun _ _ => [],
    small_llm := offlineLLM, main_llm := offlineLLM }

/-- The default cache after `set("약은 언제 복용하나요?", …, ttl_days=30)` —
a populated FAQ entry whose question carries escalate-tier keywords. -/
def escalateFaqCache : List (String × FAQEntry) :=
  faq_set 0 (faqDefaultEntries 0) ("약은 언제 복용하나요?")
    ("복용 시간은 처방에 따라 다르므로 담당 의사와 상의하세요.") 30

/-- A pipeline whose FAQ cache is `escalateFaqCache`. -/
def escalateCachePipeline : RetrievalPipeline :=
  { faqGet := fun question =>
      faq_get_string_match 0 escalateFaqCache question (mkRat 85 100),
    vectorRetrieve := fun _ _ => [], graphRetrieve := fun _ _ => [],
    small_llm := offlineLLM, main_llm := offlineLLM }

/-- A merge-stage state on the vector path with out-of-order scores. -/
def vectorMergeState : PState :=
  { question := ("운동은 얼마나 해야 할까요"), context := none, mode := ("live"),
    analysis := some sampleAnalysis, strategy := some ("vector"),
    safety := some (build_safety_envelope sampleAnalysis),
    vector_results := [chunkA, chunkB], graph_results := [] }

/-- A merge-stage state on the decompose path whose pass-through evidence has
an ascending score sequence (sub-question 1 returned score 1, sub-question 2
returned score 9). -/
def decomposeMergeState : PState :=
  { question := ("운동과 식단은 어떻게 해야 할까요"), context := none, mode := ("live"),
    analysis := some sampleAnalysis, strategy := some ("decompose"),
    safety := some (build_safety_envelope sampleAnalysis),
    evidence := some [chunkA, chunkB] }

/-- An FAQ cache holding one entry set at `now = 0` with `ttl_days = 1`. -/
def shortTtlCache : List (String × FAQEntry) :=
  faq_set 0 [] ("운동 시간") ("하루 30분 걷기를 권장합니다.") 1

/-- A vector-retriever environment with a configured remote store and a
non-empty local cache. -/
def sampleVectorEnv : VectorRetrieverEnv :=
  { hasDatabaseUrl := true, remote := fun _ _ => Except.ok [chunkB],
    localCache := fun _ _ => [chunkA] }

/-! ## Theorems -/

/-! ### Helper lemmas (shared) -/

theorem listStartsWith_refl (l : List Char) : listStartsWith l l = true := by
  induction l with
  | nil => rfl
  | cons c t ih => simp [listStartsWith, ih]

theorem listContains_append (g : List Char) :
    ∀ pre : List Char, listContains g (pre ++ g) = true := by
  intro pre
  induction pre with
  | nil =>
    simp only [List.nil_append]
    cases g with
    | nil => rfl
    | cons c t => simp [listContains, listStartsWith_refl]
  | cons c pre ih =>
    simp [listContains, ih]

theorem pyIn_append_suffix (g a s : String) : pyIn g ((a ++ s) ++ g) = true := by
  simp only [pyIn, String.data_append]
  exact listContains_append g.data (a.data ++ s.data)

/-! ### C9 — idempotence of `append_caution_guidance` -/

/-- C9: `append_caution_guidance` is idempotent: applying it twice to any
answer with any safety envelope yields the same string as applying it once —
empty guidance is a no-op, guidance already present is not duplicated, and
freshly appended guidance is found by the containment check on the second
pass. -/
theorem append_caution_guidance_idempotent (answer : String) (envelope : SafetyEnvelope) :
    append_caution_guidance (append_caution_guidance answer envelope) envelope =
      append_caution_guidance answer envelope := by
  unfold append_caution_guidance
  by_cases h1 : pyStrip envelope.escalation_copy = ("")
  · simp [h1]
  · simp only [if_neg h1]
    by_cases h2 : pyIn (pyStrip envelope.escalation_copy) answer = true
    · simp [h2]
    · simp only [h2, if_false, Bool.false_eq_true, if_neg]
      by_cases h3 : pyEndsWith answer (".") = true
      · simp only [h3, if_true]
        rw [if_pos (pyIn_append_suffix (pyStrip envelope.escalation_copy) answer (" "))]
      · simp only [h3, Bool.false_eq_true, if_false]
        rw [if_pos (pyIn_append_suffix (pyStrip envelope.escalation_copy) answer (". "))]

/-! ### C10 — non-positive limits short-circuit `VectorRetriever` -/

/-- C10: for every query and every `limit ≤ 0`, both
`VectorRetriever.retrieve` and `VectorRetriever.retrieve_async` return the
empty list with an empty access trace — neither the remote store nor the
local cache is contacted. -/
theorem vector_retrieve_nonpositive_limit (env : VectorRetrieverEnv) (query : String)
    (limit : ℤ) (h : limit ≤ 0) :
    VectorRetriever.retrieve env query limit = ([], []) ∧
      VectorRetriever.retrieve_async env query limit = ([], []) := by
  refine ⟨?_, ?_⟩
  · unfold VectorRetriever.retrieve
    rw [if_pos h]
  · unfold VectorRetriever.retrieve_async
    rw [if_pos h]

/-- Witness for C10 at `limit = 0` with a configured remote store and a
populated local cache. -/
theorem vector_retrieve_nonpositive_limit_witness :
    ((0 : ℤ) ≤ 0) ∧
      (VectorRetriever.retrieve sampleVectorEnv ("운동") 0 = ([], []) ∧
        VectorRetriever.retrieve_async sampleVectorEnv ("운동") 0 = ([], [])) :=
  ⟨by decide, vector_retrieve_nonpositive_limit sampleVectorEnv ("운동") 0 (by decide)⟩

/-! ### C7 — the strategy selector implements the decision table -/

/-- C7: for every analysis, question, context and mode, the strategy chosen by
`_select_strategy` is exactly the spec's decision table evaluated top-down on
the complexity bucket and the relationship / connector / multiple-question /
long-text signals; moreover the multi-hop vector case uses the wider top-k
(5 live / 7 preparation, versus 3 / 5 for the simple case). -/
theorem select_strategy_matches_decision_table (analysis : QuestionAnalysisResult)
    (question : String) (context : Option String) (mode : String) :
    ((select_strategy analysis question context mode).name =
      specStrategyTable (pyLower analysis.complexity)
        (relationshipSignal (pyStrip question)) (connectorSignal (pyStrip question))
        (multipleQuestionsSignal (pyStrip question)) (longTextSignal (pyStrip question))) ∧
    (pyLower analysis.complexity = ("multi-hop") →
      relationshipSignal (pyStrip question) = false →
      connectorSignal (pyStrip question) = false →
      (select_strategy analysis question context mode).vector_k =
          some (specVectorKComplex mode) ∧
        specVectorKSimple mode < specVectorKComplex mode) := by
  constructor
  · simp only [select_strategy, specStrategyTable, relationshipSignal, connectorSignal,
      multipleQuestionsSignal, longTextSignal]
    split_ifs <;> rfl
  · intro h1 h2 h3
    simp only [select_strategy, specVectorKComplex, specVectorKSimple, relationshipSignal,
      connectorSignal, multipleQuestionsSignal, longTextSignal] at *
    rw [h1]
    simp only [h2, h3]
    constructor
    · simp
    · by_cases hm : mode = ("live") <;> simp [hm]

/-- Witness for C7 at a concrete multi-hop analysis, a signal-free question
and live mode. -/
theorem select_strategy_matches_decision_table_witness :
    ((select_strategy { sampleAnalysis with complexity := ("multi-hop") }
        ("운동은 얼마나 해야 할까요") none ("live")).name =
      specStrategyTable (pyLower ("multi-hop"))
        (relationshipSignal (pyStrip ("운동은 얼마나 해야 할까요")))
        (connectorSignal (pyStrip ("운동은 얼마나 해야 할까요")))
        (multipleQuestionsSignal (pyStrip ("운동은 얼마나 해야 할까요")))
        (longTextSignal (pyStrip ("운동은 얼마나 해야 할까요")))) ∧
    (pyLower ("multi-hop") = ("multi-hop") →
      relationshipSignal (pyStrip ("운동은 얼마나 해야 할까요")) = false →
      connectorSignal (pyStrip ("운동은 얼마나 해야 할까요")) = false →
      (select_strategy { sampleAnalysis with complexity := ("multi-hop") }
          ("운동은 얼마나 해야 할까요") none ("live")).vector_k =
          some (specVectorKComplex ("live")) ∧
        specVectorKSimple ("live") < specVectorKComplex ("live")) :=
  select_strategy_matches_decision_table
    { sampleAnalysis with complexity := ("multi-hop") }
    ("운동은 얼마나 해야 할까요") none ("live")

/-! ### Lemmas on the dedup-and-cap loop and the stable sort -/

theorem dedupCapAux_sublist (m : ℤ) :
    ∀ (l : List Chunk) (seen : List String) (count : ℕ),
      (dedupCapAux m l seen count).Sublist l := by
  intro l
  induction l with
  | nil => intro seen count; simp [dedupCapAux]
  | cons hd rest ih =>
    intro seen count
    unfold dedupCapAux
    by_cases hseen : seen.contains hd.chunk_id = true
    · simp only [hseen, if_true]
      exact (ih seen count).cons hd
    · simp only [Bool.not_eq_true] at hseen
      simp only [hseen, Bool.false_eq_true, if_false]
      by_cases hcap : m ≤ ((count : ℤ) + 1)
      · simp only [hcap, if_true]
        exact (List.nil_sublist rest).cons₂ hd
      · simp only [hcap, if_false]
        exact (ih (hd.chunk_id :: seen) (count + 1)).cons₂ hd

theorem dedupCapAux_ids (m : ℤ) :
    ∀ (l : List Chunk) (seen : List String) (count : ℕ),
      ((dedupCapAux m l seen count).map (fun c => c.chunk_id)).Nodup ∧
        ∀ c ∈ dedupCapAux m l seen count, seen.contains c.chunk_id = false := by
  intro l
  induction l with
  | nil => intro seen count; simp [dedupCapAux]
  | cons hd rest ih =>
    intro seen count
    unfold dedupCapAux
    by_cases hseen : seen.contains hd.chunk_id = true
    · simp only [hseen, if_true]
      exact ih seen count
    · simp only [Bool.not_eq_true] at hseen
      simp only [hseen, Bool.false_eq_true, if_false]
      by_cases hcap : m ≤ ((count : ℤ) + 1)
      · simp only [hcap, if_true]
        refine ⟨by simp, ?_⟩
        intro c hc
        simp only [List.mem_singleton] at hc
        subst hc
        exact hseen
      · simp only [hcap, if_false]
        obtain ⟨ihN, ihM⟩ := ih (hd.chunk_id :: seen) (count + 1)
        constructor
        · simp only [List.map_cons, List.nodup_cons]
          refine ⟨?_, ihN⟩
          intro hmem
          obtain ⟨c, hc, hcid⟩ := List.mem_map.mp hmem
          have := ihM c hc
          simp only [List.contains_cons] at this
          rw [hcid] at this
          simp at this
        · intro c hc
          rcases List.mem_cons.mp hc with heq | hmem
          · subst heq
            exact hseen
          · have := ihM c hmem
            simp only [List.contains_cons, Bool.or_eq_false_iff] at this
            exact this.2

theorem dedupCapAux_length (m : ℤ) :
    ∀ (l : List Chunk) (seen : List String) (count : ℕ), (count : ℤ) < m →
      ((dedupCapAux m l seen count).length : ℤ) ≤ m - count := by
  intro l
  induction l with
  | nil => intro seen count h; simp [dedupCapAux]; omega
  | cons hd rest ih =>
    intro seen count h
    unfold dedupCapAux
    by_cases hseen : seen.contains hd.chunk_id = true
    · simp only [hseen, if_true]
      exact ih seen count h
    · simp only [Bool.not_eq_true] at hseen
      simp only [hseen, Bool.false_eq_true, if_false]
      by_cases hcap : m ≤ ((count : ℤ) + 1)
      · simp only [hcap, if_true, List.length_singleton]
        omega
      · simp only [hcap, if_false, List.length_cons]
        have := ih (hd.chunk_id :: seen) (count + 1) (by omega)
        push_cast at this ⊢
        omega

theorem dedupCapAux_firstOcc (m : ℤ) :
    ∀ (l : List Chunk) (seen : List String) (count : ℕ) (c : Chunk),
      c ∈ dedupCapAux m l seen count →
      l.find? (fun d => d.chunk_id == c.chunk_id) = some c := by
  intro l
  induction l with
  | nil => intro seen count c hc; simp [dedupCapAux] at hc
  | cons hd rest ih =>
    intro seen count c hc
    unfold dedupCapAux at hc
    by_cases hseen : seen.contains hd.chunk_id = true
    · simp only [hseen, if_true] at hc
      have hcid := ((dedupCapAux_ids m rest seen count).2) c hc
      have hne : (hd.chunk_id == c.chunk_id) = false := by
        by_contra hne
        simp only [Bool.not_eq_false, beq_iff_eq] at hne
        rw [← hne] at hcid
        rw [hcid] at hseen
        simp at hseen
      rw [List.find?_cons_of_neg _ (by simp_all), ih seen count c hc]
    · simp only [Bool.not_eq_true] at hseen
      simp only [hseen, Bool.false_eq_true, if_false] at hc
      by_cases hcap : m ≤ ((count : ℤ) + 1)
      · simp only [hcap, if_true, List.mem_singleton] at hc
        subst hc
        rw [List.find?_cons_of_pos _ (by simp)]
      · simp only [hcap, if_false] at hc
        rcases List.mem_cons.mp hc with heq | hmem
        · subst heq
          rw [List.find?_cons_of_pos _ (by simp)]
        · have hcid := ((dedupCapAux_ids m rest (hd.chunk_id :: seen) (count + 1)).2) c hmem
          simp only [List.contains_cons, Bool.or_eq_false_iff, beq_eq_false_iff_ne] at hcid
          rw [List.find?_cons_of_neg _
              (by simp only [beq_iff_eq]; exact fun h => hcid.1 h.symm),
            ih (hd.chunk_id :: seen) (count + 1) c hmem]

theorem mem_insertByScoreDesc (x : Chunk) :
    ∀ (l : List Chunk) (z : Chunk), z ∈ insertByScoreDesc x l → z = x ∨ z ∈ l := by
  intro l
  induction l with
  | nil => intro z hz; simpa [insertByScoreDesc] using hz
  | cons y rest ih =>
    intro z hz
    unfold insertByScoreDesc at hz
    by_cases hle : scoreOrZero x ≤ scoreOrZero y
    · simp only [hle, if_true] at hz
      rcases List.mem_cons.mp hz with heq | hmem
      · exact Or.inr (heq ▸ List.mem_cons_self y rest)
      · rcases ih z hmem with h | h
        · exact Or.inl h
        · exact Or.inr (List.mem_cons_of_mem y h)
    · simp only [hle, if_false] at hz
      rcases List.mem_cons.mp hz with heq | hmem
      · exact Or.inl heq
      · exact Or.inr hmem

theorem pairwise_insertByScoreDesc (x : Chunk) :
    ∀ l : List Chunk, l.Pairwise scoreGE → (insertByScoreDesc x l).Pairwise scoreGE := by
  intro l
  induction l with
  | nil => intro _; simp [insertByScoreDesc]
  | cons y rest ih =>
    intro h
    rw [List.pairwise_cons] at h
    unfold insertByScoreDesc
    by_cases hle : scoreOrZero x ≤ scoreOrZero y
    · simp only [hle, if_true]
      rw [List.pairwise_cons]
      refine ⟨?_, ih h.2⟩
      intro z hz
      rcases mem_insertByScoreDesc x rest z hz with hzx | hzr
      · subst hzx
        exact hle
      · exact h.1 z hzr
    · simp only [hle, if_false]
      rw [List.pairwise_cons]
      refine ⟨?_, List.pairwise_cons.mpr h⟩
      intro z hz
      rcases List.mem_cons.mp hz with hzy | hzr
      · subst hzy
        exact le_of_not_le hle
      · exact le_trans (h.1 z hzr) (le_of_not_le hle)

theorem sortByScoreDesc_foldl_pairwise :
    ∀ (l acc : List Chunk), acc.Pairwise scoreGE →
      (l.foldl (fun sorted x => insertByScoreDesc x sorted) acc).Pairwise scoreGE := by
  intro l
  induction l with
  | nil => intro acc h; simpa using h
  | cons x rest ih =>
    intro acc h
    simpa [List.foldl_cons] using ih (insertByScoreDesc x acc) (pairwise_insertByScoreDesc x acc h)

theorem sortByScoreDesc_pairwise (l : List Chunk) :
    (sortByScoreDesc l).Pairwise scoreGE :=
  sortByScoreDesc_foldl_pairwise l [] (List.Pairwise.nil)

theorem merge_evidence_pairwise (m : ℤ) (vec gr : List Chunk) :
    (merge_evidence m vec gr).Pairwise scoreGE :=
  (sortByScoreDesc_pairwise (vec ++ gr)).sublist
    (dedupCapAux_sublist m (sortByScoreDesc (vec ++ gr)) [] 0)

/-! ### C4 — dedup and cap of the Evidence Merger / Decomposer -/

/-- C4 (amended): whenever the configured max evidence count is at least 1,
both the Evidence Merger (on any vector/graph result lists) and the
Decomposer dedup (on any concatenated per-sub-question results) produce
evidence with pairwise-distinct `chunk_id`s, of length at most the configured
count, each kept chunk being the first occurrence of its `chunk_id` in the
respective input order (score-sorted for the merger).  The amendment: the
as-written claim also covers non-positive configured counts, where the
cap check — running only after an append — lets one chunk through. -/
theorem merge_and_decompose_dedup_bounded (m : ℤ) (hm : 1 ≤ m)
    (vector_results graph_results evidence : List Chunk) :
    (((merge_evidence m vector_results graph_results).map (fun c => c.chunk_id)).Nodup ∧
      ((merge_evidence m vector_results graph_results).length : ℤ) ≤ m ∧
      ∀ c ∈ merge_evidence m vector_results graph_results,
        (sortByScoreDesc (vector_results ++ graph_results)).find?
            (fun d => d.chunk_id == c.chunk_id) = some c) ∧
    (((decompose_dedup m evidence).map (fun c => c.chunk_id)).Nodup ∧
      ((decompose_dedup m evidence).length : ℤ) ≤ m ∧
      ∀ c ∈ decompose_dedup m evidence,
        evidence.find? (fun d => d.chunk_id == c.chunk_id) = some c) := by
  simp only [merge_evidence, decompose_dedup]
  have hlen1 := dedupCapAux_length m (sortByScoreDesc (vector_results ++ graph_results)) [] 0
    (by omega)
  have hlen2 := dedupCapAux_length m evidence [] 0 (by omega)
  refine ⟨⟨(dedupCapAux_ids m _ [] 0).1, by simpa using hlen1,
      fun c hc => dedupCapAux_firstOcc m _ [] 0 c hc⟩,
    ⟨(dedupCapAux_ids m _ [] 0).1, by simpa using hlen2,
      fun c hc => dedupCapAux_firstOcc m _ [] 0 c hc⟩⟩

/-- C4 counterexample: with the max evidence count configured to 0
(`EVIDENCE_LIMIT=0`) and a single-chunk input, the merger emits one chunk —
the output length exceeds the configured count, because the cap check runs
only after each append. -/
theorem merge_evidence_cap_zero_exceeds :
    ¬ (((merge_evidence 0 [chunkA] []).length : ℤ) ≤ 0) := by decide

/-- Witness for C4 at the default count 5 with overlapping inputs. -/
theorem merge_and_decompose_dedup_bounded_witness :
    ((1 : ℤ) ≤ 5) ∧
      ((((merge_evidence 5 [chunkA, chunkB] [chunkA]).map (fun c => c.chunk_id)).Nodup ∧
        ((merge_evidence 5 [chunkA, chunkB] [chunkA]).length : ℤ) ≤ 5 ∧
        ∀ c ∈ merge_evidence 5 [chunkA, chunkB] [chunkA],
          (sortByScoreDesc ([chunkA, chunkB] ++ [chunkA])).find?
              (fun d => d.chunk_id == c.chunk_id) = some c) ∧
      (((decompose_dedup 5 [chunkB, chunkB]).map (fun c => c.chunk_id)).Nodup ∧
        ((decompose_dedup 5 [chunkB, chunkB]).length : ℤ) ≤ 5 ∧
        ∀ c ∈ decompose_dedup 5 [chunkB, chunkB],
          [chunkB, chunkB].find? (fun d => d.chunk_id == c.chunk_id) = some c)) :=
  ⟨by decide,
    merge_and_decompose_dedup_bounded 5 (by decide) [chunkA, chunkB] [chunkA] [chunkB, chunkB]⟩

/-! ### C5 — the merge stage's score sequence -/

/-- C5 (amended): for every merge-stage input whose strategy is not
`decompose`, the evidence leaving `_node_merge_evidence` has a non-increasing
score sequence (missing scores read as 0).  The amendment: the as-written
claim also covers the decompose pass-through, whose evidence is forwarded
unchanged and is only sorted within each sub-question segment, not globally
(see the counterexample). -/
theorem node_merge_nondecompose_scores_nonincreasing (p : RetrievalPipeline) (s : PState)
    (h : ¬ s.strategy = some ("decompose")) :
    scoresNonIncreasing ((node_merge_evidence p s).evidence.getD []) := by
  unfold node_merge_evidence
  have hcond : ¬ (s.strategy = some ("decompose") ∧
      (match s.evidence with | some (_ :: _) => true | _ => false) = true) :=
    fun hc => h hc.1
  simp only [hcond, if_false]
  exact List.Pairwise.chain' (merge_evidence_pairwise p.max_evidence s.vector_results s.graph_results)

/-- C5 counterexample: a decompose-path merge input whose pass-through
evidence carries scores 1 then 9 — the merge stage forwards it unchanged and
the score sequence increases. -/
theorem node_merge_decompose_pass_through_not_sorted :
    (node_merge_evidence emptyCachePipeline decomposeMergeState).evidence.getD []
        = [chunkA, chunkB] ∧
      ¬ scoresNonIncreasing
        ((node_merge_evidence emptyCachePipeline decomposeMergeState).evidence.getD []) := by
  constructor
  · decide
  · intro hchain
    rw [show (node_merge_evidence emptyCachePipeline decomposeMergeState).evidence.getD []
        = [chunkA, chunkB] from by decide] at hchain
    simp only [scoresNonIncreasing, List.chain'_cons, List.chain'_singleton, and_true] at hchain
    exact absurd hchain (by decide)

/-- Witness for C5 on the vector path with out-of-order input scores. -/
theorem node_merge_nondecompose_scores_nonincreasing_witness :
    (¬ vectorMergeState.strategy = some ("decompose")) ∧
      scoresNonIncreasing
        ((node_merge_evidence emptyCachePipeline vectorMergeState).evidence.getD []) :=
  ⟨by decide,
    node_merge_nondecompose_scores_nonincreasing emptyCachePipeline vectorMergeState (by decide)⟩

/-! ### C6 — FAQ cache round-trip and expiry -/

/-- C6: a fresh `set(q, a, ttl_days=1)` is returned by an immediate `get(q)`
at the default 0.85 threshold; but once `now > cached_at + ttl`, the
string-match read path deletes the expired entry from the dict it is
iterating and then continues the loop, so CPython raises
`RuntimeError: dictionary changed size during iteration` instead of
returning `None`, contradicting `get`'s own docstring
("Returns: Cached answer if found and valid, None otherwise"). -/
theorem faq_expired_read_raises_runtime_error :
    (faq_get_string_match 0 shortTtlCache ("운동 시간") (mkRat 85 100) =
      Except.ok (some ("하루 30분 걷기를 권장합니다."))) ∧
    (faq_get_string_match 172800 shortTtlCache ("운동 시간") (mkRat 85 100) =
      Except.error (PyErr.runtimeError ("dictionary changed size during iteration"))) := by
  constructor
  · decide
  · decide

/-! ### C3 — the query rewriter -/

/-- C3: the rewriter is a pass-through (modulo `strip()`) for the `vector`
strategy, but for every other strategy it runs `self.small_llm.invoke([...])`
on an `LLMClient` — which defines only `complete` and is always truthy — so it
raises `AttributeError` instead of degrading to the original question. -/
theorem rewrite_question_nonvector_raises :
    (rewrite_question emptyCachePipeline ("운동은 얼마나 해야 하나요?") sampleAnalysis ("vector") =
      Except.ok ("운동은 얼마나 해야 하나요?")) ∧
    (rewrite_question emptyCachePipeline ("운동과 혈압의 관계는 무엇인가요?") sampleAnalysis
        ("graph") =
      Except.error (PyErr.attributeError ("LLMClient object has no attribute invoke"))) := by
  constructor
  · rfl
  · rfl

/-! ### C8 — the answer synthesizer -/

/-- C8: with empty evidence, for every pipeline (hence independently of any
LLM behaviour), question, analysis and strategy, the synthesizer returns the
fixed generic-guidance message with empty citations; with non-empty evidence
it runs `self.main_llm.invoke([...])` on an `LLMClient` — which defines only
`complete` — and raises `AttributeError` before any answer (or citation
post-processing) can be produced. -/
theorem synthesize_answer_empty_fixed_nonempty_raises :
    (∀ (p : RetrievalPipeline) (question : String) (analysis : QuestionAnalysisResult)
        (strategy : String),
      synthesize_answer p question analysis [] strategy = Except.ok (noEvidenceMessage, [])) ∧
    (synthesize_answer emptyCachePipeline ("운동은 얼마나 해야 하나요?") sampleAnalysis [chunkA]
        ("vector") =
      Except.error (PyErr.attributeError ("LLMClient object has no attribute invoke"))) :=
  ⟨fun _ _ _ _ => rfl, rfl⟩

/-! ### C2 — the FAQ cache-hit path of `run` -/

/-- C2: on a live-mode cache hit (the exact default FAQ question, similarity
1 ≥ 0.85, entry unexpired) `run` does not return the cached answer — it
raises `TypeError`, because the cache-hit branch constructs
`QuestionAnalysisResult` with keyword arguments `strategy` and `reasoning`
that are not fields of that slots dataclass. -/
theorem run_faq_cache_hit_raises_type_error :
    defaultCachePipeline.run ("운동은 얼마나 해야 하나요?") none ("live") =
      Except.error (PyErr.typeError
        ("QuestionAnalysisResult.__init__() got an unexpected keyword argument strategy")) := by
  decide

/-! ### C1 — escalate-tier questions through `run` -/

/-- C1 counterexample: a question carrying escalate-tier keywords ("약은",
"복용하나요" contain the keywords 약 and 복용) that coincides with a populated
FAQ-cache entry.  The cache is consulted before the state machine, so `run`
never produces the escalate output the claim demands for every
escalate-keyword question — on this input it raises the cache-hit
`TypeError` instead of returning a `RetrievalOutput`. -/
theorem run_escalate_keyword_cache_hit_counterexample :
    containsEscalateKeyword (pyStrip ("약은 언제 복용하나요?")) = true ∧
      escalateCachePipeline.run ("약은 언제 복용하나요?") none ("live") =
        Except.error (PyErr.typeError
          ("QuestionAnalysisResult.__init__() got an unexpected keyword argument strategy")) := by
  constructor
  · decide
  · decide

set_option maxRecDepth 100000 in
/-- The fixed override text contains no PII pattern, so scrubbing leaves it
unchanged. -/
theorem scrub_text_escalate_override :
    scrub_text escalateOverrideAnswer = escalateOverrideAnswer := by decide

/-- An escalate-tier keyword forces `_detect_safety` to `escalate` (the
keyword loop runs first and short-circuits). -/
theorem detect_safety_escalate (text : String)
    (h : containsEscalateKeyword text = true) :
    (detect_safety text).1 = SafetyLevel.escalate := by
  cases hfind : safetyEscalateKeywords.find? (fun keyword => pyIn keyword text) with
  | some k2 => simp [detect_safety, hfind]
  | none =>
    exfalso
    obtain ⟨k, hk, hpk⟩ := List.any_eq_true.mp h
    have := List.find?_eq_none.mp hfind k hk
    exact this hpk

/-- An escalate-tier keyword forces the whole analysis to `escalate`,
whatever the measured classification latency (the latency fail-safe can only
escalate further). -/
theorem analyze_escalate (budget lat : ℚ) (q : String) (ctx : Option String)
    (h : containsEscalateKeyword (pyStrip q) = true) :
    (analyze budget lat q ctx).safety = SafetyLevel.escalate := by
  have hs := detect_safety_escalate (pyStrip q) h
  unfold analyze
  by_cases hl : lat > budget * 1000 <;> simp [hl, hs]

/-- C1 (amended): for every pipeline, question and context, if the stripped
question contains an escalate-tier safety keyword **and** the live-mode FAQ
cache lookup misses, then `run` returns a `RetrievalOutput` with
`analysis.safety = escalate`, empty evidence, empty citations, and the fixed
physician-referral override text of the Guardrail Builder as the answer.
The amendment: the as-written claim extends this to questions that hit the
FAQ cache — but the cache is consulted before the state machine, so those
questions never reach the safety gate (see the counterexample, where the
cache-hit branch raises instead). -/
theorem run_escalate_bypassing_cache (p : RetrievalPipeline) (question : String)
    (context : Option String)
    (hkw : containsEscalateKeyword (pyStrip question) = true)
    (hmiss : p.faqGet question = Except.ok none) :
    ∃ out : RetrievalOutput,
      p.run question context ("live") = Except.ok out ∧
        out.analysis.safety = SafetyLevel.escalate ∧
        out.evidence = [] ∧ out.citations = [] ∧
        out.answer = escalateOverrideAnswer := by
  have hA := analyze_escalate p.latency_budget p.classifier_latency_ms question context hkw
  simp only [RetrievalPipeline.run, hmiss, graph_invoke, node_analyze, node_safety,
    route_after_safety, build_safety_envelope, hA, appendAg, if_true, reduceCtorEq,
    if_false, Option.getD_some, ne_eq]
  rw [if_neg (by decide : ¬ (("live") : String) = ("preparation"))]
  refine ⟨_, rfl, ?_, ?_, ?_, ?_⟩
  · exact hA
  · rfl
  · rfl
  · exact scrub_text_escalate_override

/-- Witness for C1 on the repository's own escalation test question, over an
empty FAQ cache (a guaranteed miss). -/
theorem run_escalate_bypassing_cache_witness :
    (containsEscalateKeyword (pyStrip ("약을 조절해도 될까요?")) = true) ∧
      (emptyCachePipeline.faqGet ("약을 조절해도 될까요?") = Except.ok none) ∧
      (∃ out : RetrievalOutput,
        emptyCachePipeline.run ("약을 조절해도 될까요?") none ("live") = Except.ok out ∧
          out.analysis.safety = SafetyLevel.escalate ∧
          out.evidence = [] ∧ out.citations = [] ∧
          out.answer = escalateOverrideAnswer) :=
  ⟨by decide, by decide,
    run_escalate_bypassing_cache emptyCachePipeline ("약을 조절해도 될까요?") none
      (by decide) (by decide)⟩
